import Mathlib

/-!
Shallow embedding of the droplet lifecycle controller of
`src/discord-bot.service.ts` (class `MinecraftServerService`).

The controller owns five mutable fields (`creationCallback`, `status`,
`dropletId`, `ipv4`) plus the constructor-built `sshConfig`.  We embed the
mutable fields as a record `MCState` and every method as a pure function
`MCState → ... → MCState × List Event`, where `Event` records the externally
observable effects (log lines, SSH connects/execs/disposes, DigitalOcean API
calls, callback invocations, timer scheduling) in the order the method issues
them.  Results of the external collaborators (DigitalOcean client, SSH
transport) are passed in as explicit oracle arguments, one per `await` site.

JavaScript semantics preserved deliberately:
  - `for (const cmd in initializationScript)` iterates the array KEYS, the
    strings "0".."8", not the elements (`forInKeys` below);
  - the per-command `runSSHCommand` promises inside `initDroplet` are not
    awaited, so their failures never reach the surrounding catch: only the
    awaited `ssh.connect` can move the state to `weird`;
  - `stopServer` awaits its SSH command outside any try/catch, so a thrown
    command aborts the method before `deleteDroplet` and leaves the status
    at `stopping`;
  - `runSSHCommand` has no try/finally, so a throwing `execCommand` skips
    the `dispose` call;
  - the falsy test `!res.networks.v4.ip_address` treats both an absent and
    an empty-string address as "no network";
  - `setTimeout(this.waitForDroplet, 5000)` passes the UNBOUND method
    reference (the method is not an arrow-function property), so when the
    timer fires, `this` is not the service instance and the very first
    statement `this.doService.getDroplet(...)` throws a TypeError before any
    provider query, log, state write or rescheduling; only the initial
    invocation from `createServer` — a bound call `this.waitForDroplet()` —
    ever runs the body.  The `schedule` event records the `setTimeout` call;
    the firing of that timer is `firedPollTimeout`, not another run of the
    body;
  - `sshConfig` is built once in the constructor from `this.ipv4`, which is
    still `undefined` at that point, and is never rebuilt.
-/

/-- Embedding of the `ServerStatus` union type. -/
inductive ServerStatus
  | up
  | down
  | starting
  | stopping
  | weird
  deriving DecidableEq, Repr

/-- Result object of `ssh.execCommand` (node-ssh `SSHExecCommandResponse`). -/
structure SSHExecCommandResponse where
  stdout : String
  stderr : String
  code : Int
  deriving DecidableEq, Repr

/-- The ssh config object built in the constructor.  `host` is an
`Option String` because the captured `this.ipv4` is `undefined` at
construction time. -/
structure SSHConfig where
  host : Option String
  username : String
  privateKey : String
  deriving DecidableEq, Repr

/-- Externally observable effects, in issuance order.  SSH sessions are
identified by a `Nat` tag supplied by the caller of the embedding. -/
inductive Event
  | logWarn (msg : String)
  | logInfo (msg : String)
  | logError (msg : String)
  | consoleLog (msg : String)
  | sshConnect (host : Option String) (session : Nat)
  | sshExec (session : Nat) (cmd : String)
  | sshDispose (session : Nat)
  | doCreateDroplet
  | doDeleteDroplet (dropletId : Option Nat)
  | doGetDroplet (dropletId : Option Nat)
  | callbackInvoked
  | schedule (delayMs : Nat)
  | uncaughtTypeError
  deriving DecidableEq, Repr

/-- The mutable fields of `MinecraftServerService`, plus the readonly
`sshConfig` that the constructor builds.  `Option` models fields that can be
`undefined`. -/
structure MCState where
  sshConfig : SSHConfig
  creationCallback : Option Unit
  status : ServerStatus
  dropletId : Option Nat
  ipv4 : Option String
  deriving DecidableEq, Repr

/-- The constructor: `status` starts at "down", `dropletId` and `ipv4` are
undefined, and `sshConfig` captures the value of `this.ipv4` at construction
time, i.e. `undefined` (`none`), as its `host`. -/
def mkService (privateKeyPath : String) : MCState :=
  { sshConfig := { host := none, username := "root", privateKey := privateKeyPath }
    creationCallback := none
    status := ServerStatus.down
    dropletId := none
    ipv4 := none }

/-- Embedding of the commands array `initializationScript`. -/
def initializationScript : List String :=
  [ "mkdir -p /mnt/discord_mcserver"
  , "mount /dev/sda /mnt/discord_mcserver"
  , "apt install openjdk-11-jre-headless -y"
  , "ufw allow 25565/tcp"
  , "ufw allow 25565/udp"
  , "useradd --home-dir /mnt/discord_mcserver/minecraft --uid=10001 minecraft"
  , "cp /mnt/discord_mcserver/minecraft.service /etc/systemd/system/minecraft.service"
  , "systemctl daemon-reload"
  , "systemctl enable --now minecraft.service"
  ]

/-- JavaScript `for (const k in array)` iterates the array keys: the decimal
strings "0", "1", ... up to the length. -/
def forInKeys (l : List String) : List String :=
  (List.range l.length).map (fun i => toString i)

/-- Embedding of `runSSHCommand(command, ssh?, logOutput)`.

`ssh = none` models the `undefined` default: the method then constructs a
session (tagged `freshSession`), initiates `connect` with `this.sshConfig`
(the source does not await the connect), sets `disposeSSH = true`, and — only
if `execCommand` returns rather than throws — logs the output when requested
and disposes the session.  A throwing `execCommand` (`exec = .error`)
propagates out of the `await` before the log/dispose code runs.
Returns the propagated result and the issued events. -/
def runSSHCommand (st : MCState) (command : String) (ssh : Option Nat)
    (logOutput : Bool) (freshSession : Nat)
    (exec : Except String SSHExecCommandResponse) :
    Except String SSHExecCommandResponse × List Event :=
  match ssh with
  | none =>
    let evs0 := [Event.sshConnect st.sshConfig.host freshSession,
                 Event.sshExec freshSession command]
    match exec with
    | Except.error e => (Except.error e, evs0)
    | Except.ok result =>
      let evs1 := if logOutput then
          evs0 ++ [Event.consoleLog ("Command: " ++ command ++ ", Output:"),
                   Event.consoleLog result.stdout,
                   Event.consoleLog result.stderr]
        else evs0
      (Except.ok result, evs1 ++ [Event.sshDispose freshSession])
  | some sid =>
    let evs0 := [Event.sshExec sid command]
    match exec with
    | Except.error e => (Except.error e, evs0)
    | Except.ok result =>
      let evs1 := if logOutput then
          evs0 ++ [Event.consoleLog ("Command: " ++ command ++ ", Output:"),
                   Event.consoleLog result.stdout,
                   Event.consoleLog result.stderr]
        else evs0
      (Except.ok result, evs1)

/-- Embedding of `initDroplet()`.  `connectOk` is the outcome of the awaited
`ssh.connect(this.sshConfig)` — the only awaited expression inside the `try`,
hence the only failure the `catch` can observe.  The loop
`for (const cmd in initializationScript)` passes each array KEY to
`runSSHCommand(cmd, ssh, true)` without awaiting it; we record the events the
calls issue.  On a successful connect the status always becomes "up" and the
creation callback, when defined, is invoked. -/
def initDroplet (st : MCState) (connectOk : Bool) (sessionId : Nat)
    (exec : String → Except String SSHExecCommandResponse) :
    MCState × List Event :=
  if connectOk then
    let cmdEvents :=
      ((forInKeys initializationScript).map
        (fun cmd => (runSSHCommand st cmd (some sessionId) true sessionId (exec cmd)).2)).flatten
    let cbEvents :=
      match st.creationCallback with
      | some _ => [Event.callbackInvoked]
      | none => []
    ({ st with status := ServerStatus.up },
     [Event.logInfo "Initializing droplet with SSH...",
      Event.sshConnect st.sshConfig.host sessionId]
       ++ cmdEvents
       ++ [Event.logInfo "Droplet initialized!"]
       ++ cbEvents)
  else
    ({ st with status := ServerStatus.weird },
     [Event.logInfo "Initializing droplet with SSH...",
      Event.sshConnect st.sshConfig.host sessionId,
      Event.logError "Could not run initialization script!"])

/-- Droplet description returned by `doService.getDroplet`: the provider
status string and `networks.v4.ip_address` (absent modelled as `none`). -/
structure DropletInfo where
  status : String
  ipAddress : Option String
  deriving DecidableEq, Repr

/-- Embedding of one bound execution of the `waitForDroplet()` body.  In the
source only one such execution can happen per `createServer`: the initial
call `this.waitForDroplet()` from `createServer`.  A provider status other
than "active", or an active droplet whose address is falsy (absent or
empty), calls `setTimeout(this.waitForDroplet, 5000)` — recorded as the
`schedule 5000` event — and leaves the state unchanged; otherwise the
address is recorded in `ipv4` and `initDroplet` runs.  The `setTimeout`
callback is the unbound method reference, so the timer firing does not
re-run this body: it is modelled by `firedPollTimeout` below. -/
def waitForDroplet (st : MCState) (res : DropletInfo) (connectOk : Bool)
    (sessionId : Nat) (exec : String → Except String SSHExecCommandResponse) :
    MCState × List Event :=
  let getEv := Event.doGetDroplet st.dropletId
  if res.status ≠ "active" then
    (st, [getEv, Event.logInfo "Droplet not active. Waiting...",
          Event.schedule 5000])
  else
    match res.ipAddress with
    | none =>
      (st, [getEv,
            Event.logInfo "Droplet is active but without network. Waiting...",
            Event.schedule 5000])
    | some ip =>
      if ip = "" then
        (st, [getEv,
              Event.logInfo "Droplet is active but without network. Waiting...",
              Event.schedule 5000])
      else
        let next := initDroplet { st with ipv4 := some ip } connectOk sessionId exec
        (next.1, getEv :: next.2)

/-- Embedding of a scheduled `setTimeout(this.waitForDroplet, 5000)` timer
firing.  The callback registered by the source is the unbound method
reference, so the timer invokes `waitForDroplet` with `this` not being the
service instance (Node calls the callback with no receiver).  Its first
statement `this.doService.getDroplet(this.dropletId)` therefore throws a
TypeError before any provider query, log line, state write or rescheduling,
and the resulting promise rejection is unhandled.  The service state is
untouched and nothing external is called: the poll loop is dead after the
initial bound tick. -/
def firedPollTimeout (st : MCState) : MCState × List Event :=
  (st, [Event.uncaughtTypeError])

/-- Embedding of `createServer(callback?)`.  Guard: only when status is
"down"; otherwise a warning is logged and nothing changes.  On the accepted
path the callback is stored, status becomes "starting", and the droplet is
created; a throwing `createDroplet` (`createResult = .error`) is caught and
reverts the status to "down" (the stored callback and any stale `dropletId`
are left as they are).  The initial bound `waitForDroplet()` call is
modelled as a subsequent `pollTick` step; the firing of any timer that tick
schedules is a `firedTimeout` step. -/
def createServer (st : MCState) (callback : Option Unit)
    (createResult : Except String Nat) : MCState × List Event :=
  if st.status ≠ ServerStatus.down then
    (st, [Event.logWarn "Refusing to create server when status is not down."])
  else
    let st1 := { st with creationCallback := callback,
                         status := ServerStatus.starting }
    match createResult with
    | Except.ok dropletId =>
      ({ st1 with dropletId := some dropletId },
       [Event.doCreateDroplet,
        Event.logInfo ("Created droplet with ID " ++ toString dropletId
          ++ ". Waiting for network...")])
    | Except.error _ =>
      ({ st1 with status := ServerStatus.down },
       [Event.doCreateDroplet,
        Event.logError "Error while creating droplet!"])

/-- Embedding of `stopServer()`.  Guard: only when status is "up" or "weird".
On the accepted path the status becomes "stopping" and
`runSSHCommand("systemctl stop minecraft", undefined, true)` is awaited with
no try/catch: if it throws, the method aborts there (no `deleteDroplet`, the
status stays "stopping").  Otherwise `deleteDroplet(this.dropletId)` is
awaited (`deleteOk = false` models it throwing, which likewise aborts), and
finally the status becomes "down".  `dropletId` and `ipv4` are never written
by this method. -/
def stopServer (st : MCState) (sessionId : Nat)
    (exec : Except String SSHExecCommandResponse) (deleteOk : Bool) :
    MCState × List Event :=
  if st.status ≠ ServerStatus.up ∧ st.status ≠ ServerStatus.weird then
    (st, [Event.logWarn "Refusing to stop server when status is not up/weird."])
  else
    let st1 := { st with status := ServerStatus.stopping }
    let sshRun := runSSHCommand st1 "systemctl stop minecraft" none true sessionId exec
    let evs0 := [Event.logInfo "Stopping droplet!",
                 Event.logInfo "Running systemctl stop minecraft..."] ++ sshRun.2
    match sshRun.1 with
    | Except.error _ => (st1, evs0)
    | Except.ok _ =>
      let evs1 := evs0 ++ [Event.logInfo ("Deleting droplet with ID = "
                             ++ toString (st1.dropletId.getD 0)),
                           Event.doDeleteDroplet st1.dropletId]
      if deleteOk then
        ({ st1 with status := ServerStatus.down },
         evs1 ++ [Event.logInfo "Server stopped!"])
      else
        (st1, evs1)

/-- Embedding of `forceStatus(newStatus)`: logs a warning and assigns the
status field. -/
def forceStatus (st : MCState) (newStatus : ServerStatus) :
    MCState × List Event :=
  ({ st with status := newStatus },
   [Event.logWarn "Forcing status"])

/-- The object literal returned by `getStatus()`. -/
structure StatusReport where
  status : ServerStatus
  ipv4 : Option String
  dropletId : Option Nat
  deriving DecidableEq, Repr

/-- Embedding of `getStatus()`: a pure read of the three fields. -/
def getStatus (st : MCState) : StatusReport :=
  { status := st.status, ipv4 := st.ipv4, dropletId := st.dropletId }

/-- One controller operation together with the oracle results its `await`
sites consume.  `pollTick` is the initial, bound run of the `waitForDroplet`
body (the call `this.waitForDroplet()` from `createServer`); `firedTimeout`
is the firing of a timer that such a tick scheduled, which in the source
invokes the unbound method and dies on a TypeError before doing anything. -/
inductive Op
  | createServer (callback : Option Unit) (createResult : Except String Nat)
  | stopServer (sessionId : Nat) (exec : Except String SSHExecCommandResponse)
      (deleteOk : Bool)
  | forceStatus (s : ServerStatus)
  | pollTick (res : DropletInfo) (connectOk : Bool) (sessionId : Nat)
      (exec : String → Except String SSHExecCommandResponse)
  | firedTimeout

/-- Step function: dispatch one operation. -/
def step (st : MCState) : Op → MCState × List Event
  | Op.createServer callback createResult => createServer st callback createResult
  | Op.stopServer sessionId exec deleteOk => stopServer st sessionId exec deleteOk
  | Op.forceStatus s => forceStatus st s
  | Op.pollTick res connectOk sessionId exec =>
      waitForDroplet st res connectOk sessionId exec
  | Op.firedTimeout => firedPollTimeout st

/-- Run a sequence of operations, accumulating the event trace. -/
def run (st : MCState) : List Op → MCState × List Event
  | [] => (st, [])
  | op :: rest =>
    let first := step st op
    let next := run first.1 rest
    (next.1, first.2 ++ next.2)

/-- Commands passed to the SSH transport, in issuance order. -/
def sshCmds (evs : List Event) : List String :=
  evs.filterMap (fun e =>
    match e with
    | Event.sshExec _ cmd => some cmd
    | _ => none)

/-- Recognises an `sshDispose` event. -/
def isDisposeEvent : Event → Bool
  | Event.sshDispose _ => true
  | _ => false

/-- Recognises an `sshConnect` event. -/
def isConnectEvent : Event → Bool
  | Event.sshConnect _ _ => true
  | _ => false

/-- Recognises an `sshConnect` event whose host is defined (not the
construction-time `undefined`). -/
def isConnectWithHost : Event → Bool
  | Event.sshConnect (some _) _ => true
  | _ => false

/-- Recognises a `doDeleteDroplet` event. -/
def isDeleteEvent : Event → Bool
  | Event.doDeleteDroplet _ => true
  | _ => false

/-- Recognises a `schedule` event. -/
def isScheduleEvent : Event → Bool
  | Event.schedule _ => true
  | _ => false

/-- Shared oracle: every SSH exec returns an empty, zero-exit response. -/
def execAllOk : String → Except String SSHExecCommandResponse :=
  fun _ => Except.ok ⟨"", "", 0⟩

/-- Shared concrete response value. -/
def okResp : SSHExecCommandResponse := ⟨"", "", 0⟩

/-- A controller state mid-lifecycle: status "up", droplet 42, address known. -/
def stUp42 : MCState :=
  { sshConfig := { host := none, username := "root", privateKey := "pk" }
    creationCallback := none
    status := ServerStatus.up
    dropletId := some 42
    ipv4 := some "1.2.3.4" }

/-- Claim C10: the result returned by `runSSHCommand` (stdout, stderr, exit
status, or the propagated error) is identical whether `logOutput` is true or
false; the flag only adds `consoleLog` events to the trace. -/
theorem c10_logOutput_does_not_change_result (st : MCState) (cmd : String)
    (ssh : Option Nat) (fs : Nat) (exec : Except String SSHExecCommandResponse)
    (b1 b2 : Bool) :
    (runSSHCommand st cmd ssh b1 fs exec).1 = (runSSHCommand st cmd ssh b2 fs exec).1 := by
  cases ssh <;> cases exec <;> cases b1 <;> cases b2 <;> rfl

/-- Claim C8: `forceStatus(s)` makes a subsequent `getStatus()` report state
`s` and changes nothing else: droplet handle, address, stored callback and
ssh config are untouched, and the only effect is the warning log line. -/
theorem c8_forceStatus_only_sets_status (st : MCState) (s : ServerStatus) :
    getStatus (forceStatus st s).1
        = { status := s, ipv4 := st.ipv4, dropletId := st.dropletId }
    ∧ (forceStatus st s).1.dropletId = st.dropletId
    ∧ (forceStatus st s).1.ipv4 = st.ipv4
    ∧ (forceStatus st s).1.creationCallback = st.creationCallback
    ∧ (forceStatus st s).1.sshConfig = st.sshConfig
    ∧ (forceStatus st s).2 = [Event.logWarn "Forcing status"] :=
  ⟨rfl, rfl, rfl, rfl, rfl, rfl⟩

/-- Counterexample to claim C7: with no caller-supplied session and an
`execCommand` that throws, `runSSHCommand` propagates the error without
disposing the session it opened — there is no try/finally around the
dispose, so the release is not guaranteed on the failure path. -/
theorem c7_counterexample_no_dispose_on_throw :
    (runSSHCommand (mkService "pk") "ls" none false 5 (Except.error "boom")).2.filter isDisposeEvent = []
    ∧ (runSSHCommand (mkService "pk") "ls" none false 5 (Except.error "boom")).2.filter isConnectEvent
        = [Event.sshConnect none 5]
    ∧ (runSSHCommand (mkService "pk") "ls" none false 5 (Except.error "boom")).1
        = Except.error "boom" := by
  refine ⟨rfl, rfl, rfl⟩

/-- Claim C7 as amended: when no session is supplied, `runSSHCommand`
disposes the session it opened before returning on the success path
(whatever the exit status), but when `execCommand` throws the error
propagates and the session is never disposed; a caller-supplied session is
never disposed on any path. -/
theorem c7_session_disposal (st : MCState) (cmd : String) (lo : Bool)
    (fs sid : Nat) (r : SSHExecCommandResponse) (e : String)
    (exec : Except String SSHExecCommandResponse) :
    (runSSHCommand st cmd none lo fs (Except.ok r)).2.filter isDisposeEvent
        = [Event.sshDispose fs]
    ∧ (runSSHCommand st cmd none lo fs (Except.error e)).2.filter isDisposeEvent = []
    ∧ (runSSHCommand st cmd (some sid) lo fs exec).2.filter isDisposeEvent = [] := by
  refine ⟨?_, ?_, ?_⟩
  · cases lo <;> simp [runSSHCommand, isDisposeEvent]
  · cases lo <;> simp [runSSHCommand, isDisposeEvent]
  · cases exec <;> cases lo <;> simp [runSSHCommand, isDisposeEvent]

/-- Claim C1 evaluated on the code: because `initDroplet` iterates the
script with `for..in`, the commands actually passed to the SSH transport are
the array index strings "0".."8", not the nine commands of
`initializationScript`, even though the connect succeeds and the state still
becomes "up".  This refutes the claim that every command of the script is
executed. -/
theorem c1_initDroplet_runs_index_strings_not_script :
    sshCmds (initDroplet (mkService "pk") true 7 execAllOk).2
        = forInKeys initializationScript
    ∧ forInKeys initializationScript
        = ["0", "1", "2", "3", "4", "5", "6", "7", "8"]
    ∧ forInKeys initializationScript ≠ initializationScript
    ∧ initializationScript.length = 9
    ∧ (initDroplet (mkService "pk") true 7 execAllOk).1.status = ServerStatus.up := by
  refine ⟨rfl, rfl, by decide, rfl, rfl⟩

/-- Frame lemma: `stopServer` never writes `dropletId`, `ipv4`,
`creationCallback` or `sshConfig`, on any path. -/
theorem stopServer_frame (st : MCState) (sid : Nat)
    (exec : Except String SSHExecCommandResponse) (deleteOk : Bool) :
    (stopServer st sid exec deleteOk).1.dropletId = st.dropletId
    ∧ (stopServer st sid exec deleteOk).1.ipv4 = st.ipv4
    ∧ (stopServer st sid exec deleteOk).1.creationCallback = st.creationCallback
    ∧ (stopServer st sid exec deleteOk).1.sshConfig = st.sshConfig := by
  unfold stopServer
  split
  · exact ⟨rfl, rfl, rfl, rfl⟩
  · cases exec with
    | error e => exact ⟨rfl, rfl, rfl, rfl⟩
    | ok r => cases deleteOk <;> exact ⟨rfl, rfl, rfl, rfl⟩

/-- Counterexample to claim C2: from status "up" with droplet 42, a
`stopServer` call whose graceful-stop SSH command throws aborts before
`deleteDroplet`: no delete call is issued, the status stays "stopping" (not
"down"), and the droplet handle is still recorded. -/
theorem c2_counterexample_throw_skips_delete :
    (stopServer stUp42 9 (Except.error "connection reset") true).1.status
        = ServerStatus.stopping
    ∧ (stopServer stUp42 9 (Except.error "connection reset") true).2.filter isDeleteEvent = []
    ∧ (stopServer stUp42 9 (Except.error "connection reset") true).1.dropletId = some 42
    ∧ (stopServer stUp42 9 (Except.ok okResp) true).1.dropletId = some 42
    ∧ (stopServer stUp42 9 (Except.ok okResp) true).1.ipv4 = some "1.2.3.4" := by
  refine ⟨rfl, rfl, rfl, rfl, rfl⟩

/-- Claim C2 as amended: from status "up" or "weird", when the graceful-stop
SSH command returns without throwing (any exit status), `deleteDroplet` is
invoked on the recorded handle and, the deletion succeeding, the status
becomes "down"; when the command throws, the method aborts with the status
left at "stopping" and no `deleteDroplet` call.  In no case are the droplet
handle and the address cleared. -/
theorem c2_stopServer_behavior (st : MCState) (sid : Nat) (e : String)
    (r : SSHExecCommandResponse)
    (h : st.status = ServerStatus.up ∨ st.status = ServerStatus.weird) :
    ((stopServer st sid (Except.ok r) true).1.status = ServerStatus.down
     ∧ (stopServer st sid (Except.ok r) true).2.filter isDeleteEvent
         = [Event.doDeleteDroplet st.dropletId])
    ∧ ((stopServer st sid (Except.error e) true).1.status = ServerStatus.stopping
       ∧ (stopServer st sid (Except.error e) true).2.filter isDeleteEvent = [])
    ∧ (stopServer st sid (Except.ok r) true).1.dropletId = st.dropletId
    ∧ (stopServer st sid (Except.error e) true).1.dropletId = st.dropletId
    ∧ (stopServer st sid (Except.ok r) true).1.ipv4 = st.ipv4
    ∧ (stopServer st sid (Except.error e) true).1.ipv4 = st.ipv4 := by
  have hg : ¬(st.status ≠ ServerStatus.up ∧ st.status ≠ ServerStatus.weird) := by
    rcases h with h | h <;> simp [h]
  cases r with
  | mk out err code =>
    refine ⟨⟨?_, ?_⟩, ⟨?_, ?_⟩, ?_, ?_, ?_, ?_⟩ <;>
      simp [stopServer, hg, runSSHCommand, isDeleteEvent]

/-- Witness for `c2_stopServer_behavior` at the concrete state `stUp42`. -/
theorem c2_stopServer_behavior_witness :
    (stopServer stUp42 9 (Except.ok okResp) true).1.status = ServerStatus.down :=
  (c2_stopServer_behavior stUp42 9 "x" okResp (Or.inl rfl)).1.1

/-- Claim C4: when `createServer` is invoked while the status is "down" and
the cloud client's `createDroplet` throws, the catch handler reverts the
status to "down" and the attempt records no droplet handle (the `dropletId`
and `ipv4` fields are exactly what they were before the call; from the
freshly constructed service they are absent). -/
theorem c4_createServer_failure_reverts_to_down (pk err : String)
    (cb : Option Unit) (st : MCState) (h : st.status = ServerStatus.down) :
    (createServer st cb (Except.error err)).1.status = ServerStatus.down
    ∧ (createServer st cb (Except.error err)).1.dropletId = st.dropletId
    ∧ (createServer st cb (Except.error err)).1.ipv4 = st.ipv4
    ∧ (createServer (mkService pk) cb (Except.error err)).1.dropletId = none
    ∧ (createServer (mkService pk) cb (Except.error err)).1.status = ServerStatus.down := by
  refine ⟨?_, ?_, ?_, rfl, rfl⟩ <;> simp [createServer, h]

/-- Witness for `c4_createServer_failure_reverts_to_down` on the freshly
constructed service. -/
theorem c4_createServer_failure_witness :
    (createServer (mkService "pk") none (Except.error "quota")).1.status
        = ServerStatus.down :=
  (c4_createServer_failure_reverts_to_down "pk" "quota" none (mkService "pk") rfl).1

/-- Claim C6: a guard-rejected operation is a complete no-op.  A
`createServer` call while the status is not "down", and a `stopServer` call
while the status is neither "up" nor "weird", return the state completely
unchanged and issue exactly one warning log line: no cloud call, no SSH
traffic, no timer, and (being a returned value, not a thrown one) no
exception. -/
theorem c6_guard_rejection_is_noop (st1 st2 : MCState) (cb : Option Unit)
    (res : Except String Nat) (sid : Nat)
    (exec : Except String SSHExecCommandResponse) (deleteOk : Bool)
    (h1 : st1.status ≠ ServerStatus.down)
    (h2 : st2.status ≠ ServerStatus.up) (h3 : st2.status ≠ ServerStatus.weird) :
    createServer st1 cb res
        = (st1, [Event.logWarn "Refusing to create server when status is not down."])
    ∧ stopServer st2 sid exec deleteOk
        = (st2, [Event.logWarn "Refusing to stop server when status is not up/weird."]) := by
  constructor
  · simp [createServer, h1]
  · simp [stopServer, h2, h3]

/-- Witness for `c6_guard_rejection_is_noop`: `createServer` refused at
status "up", `stopServer` refused at the freshly constructed "down". -/
theorem c6_guard_rejection_witness :
    createServer stUp42 none (Except.ok 7)
        = (stUp42, [Event.logWarn "Refusing to create server when status is not down."])
    ∧ stopServer (mkService "pk") 3 (Except.ok okResp) true
        = (mkService "pk",
           [Event.logWarn "Refusing to stop server when status is not up/weird."]) :=
  c6_guard_rejection_is_noop stUp42 (mkService "pk") none (Except.ok 7) 3
    (Except.ok okResp) true (by decide) (by decide) (by decide)

/-- The full happy-cycle operation sequence: create droplet 42, one poll
tick that finds it active at 1.2.3.4 (provisioning connect succeeding),
then stop it with both the SSH command and the deletion succeeding. -/
def fullCycleOps : List Op :=
  [ Op.createServer none (Except.ok 42)
  , Op.pollTick ⟨"active", some "1.2.3.4"⟩ true 7 execAllOk
  , Op.stopServer 9 (Except.ok okResp) true ]

/-- Counterexample to claim C3: after a complete create → provision → stop
cycle from the initial state the status is back to "down", yet the droplet
handle is still recorded (`stopServer` never clears the field), so a handle
exists while the state is "down". -/
theorem c3_counterexample_handle_survives_down :
    (run (mkService "pk") fullCycleOps).1.status = ServerStatus.down
    ∧ (run (mkService "pk") fullCycleOps).1.dropletId = some 42 := by
  refine ⟨rfl, rfl⟩

/-- `initDroplet` never writes `dropletId`. -/
theorem initDroplet_dropletId (st : MCState) (c : Bool) (sid : Nat)
    (exec : String → Except String SSHExecCommandResponse) :
    (initDroplet st c sid exec).1.dropletId = st.dropletId := by
  unfold initDroplet
  split <;> rfl

/-- `waitForDroplet` never writes `dropletId`. -/
theorem waitForDroplet_dropletId (st : MCState) (res : DropletInfo) (c : Bool)
    (sid : Nat) (exec : String → Except String SSHExecCommandResponse) :
    (waitForDroplet st res c sid exec).1.dropletId = st.dropletId := by
  unfold waitForDroplet
  split
  · rfl
  · match res.ipAddress with
    | none => rfl
    | some ip =>
      simp only
      split
      · rfl
      · exact initDroplet_dropletId _ _ _ _

/-- No controller step clears the droplet handle: if `dropletId` is set
before a step it is still set after it (createServer may replace it, every
other operation leaves it untouched). -/
theorem step_preserves_handle (st : MCState) (op : Op)
    (h : st.dropletId.isSome = true) : ((step st op).1.dropletId).isSome = true := by
  cases op with
  | createServer cb res =>
    simp only [step]
    unfold createServer
    split
    · exact h
    · cases res with
      | ok i => simp
      | error e => simpa using h
  | stopServer sid exec deleteOk =>
    have hf := (stopServer_frame st sid exec deleteOk).1
    simp only [step, hf]
    exact h
  | forceStatus s =>
    simp only [step, forceStatus]
    exact h
  | pollTick res c sid exec =>
    have hf := waitForDroplet_dropletId st res c sid exec
    simp only [step, hf]
    exact h
  | firedTimeout => exact h

/-- Claim C3 as amended: the handle-state correspondence is one-sided and
transient.  The freshly constructed controller has no handle, and no
operation ever clears a recorded handle — in particular `stopServer` leaves
it set while returning the status to "down", so "a handle exists iff the
state is not down" fails after the first complete cycle. -/
theorem c3_handle_never_cleared (pk : String) (st : MCState) (op : Op)
    (h : st.dropletId.isSome = true) :
    ((step st op).1.dropletId).isSome = true
    ∧ (mkService pk).dropletId = none
    ∧ (mkService pk).status = ServerStatus.down :=
  ⟨step_preserves_handle st op h, rfl, rfl⟩

/-- Witness for `c3_handle_never_cleared`: stopping from `stUp42` keeps the
handle set. -/
theorem c3_handle_never_cleared_witness :
    ((step stUp42 (Op.stopServer 9 (Except.ok okResp) true)).1.dropletId).isSome = true :=
  (c3_handle_never_cleared "pk" stUp42 (Op.stopServer 9 (Except.ok okResp) true) rfl).1

/-- A flattened list of event lists, each of which filters to nothing,
filters to nothing. -/
theorem filter_flatten_nil (p : Event → Bool) (L : List (List Event))
    (h : ∀ l ∈ L, l.filter p = []) : L.flatten.filter p = [] := by
  induction L with
  | nil => rfl
  | cons l ls ih =>
    rw [List.flatten_cons, List.filter_append, h l (List.mem_cons_self l ls),
        ih (fun l' hl' => h l' (List.mem_cons_of_mem l hl'))]
    rfl

/-- `runSSHCommand` with a caller-supplied session never connects. -/
theorem runSSH_supplied_no_connect (st : MCState) (cmd : String) (sid : Nat)
    (lo : Bool) (fs : Nat) (exec : Except String SSHExecCommandResponse) :
    (runSSHCommand st cmd (some sid) lo fs exec).2.filter isConnectWithHost = [] := by
  cases exec <;> cases lo <;> simp [runSSHCommand, isConnectWithHost]

/-- `runSSHCommand` without a session connects with the stored config host;
when that host is the construction-time `undefined`, no connect event with a
defined host is issued. -/
theorem runSSH_own_session_connect_host (st : MCState) (cmd : String)
    (lo : Bool) (fs : Nat) (exec : Except String SSHExecCommandResponse)
    (h : st.sshConfig.host = none) :
    (runSSHCommand st cmd none lo fs exec).2.filter isConnectWithHost = [] := by
  cases exec <;> cases lo <;> simp [runSSHCommand, isConnectWithHost, h]

/-- `initDroplet` keeps `sshConfig` and, when the stored host is `none`,
issues no connect event with a defined host. -/
theorem initDroplet_no_connectWithHost (st : MCState) (c : Bool) (sid : Nat)
    (exec : String → Except String SSHExecCommandResponse)
    (h : st.sshConfig.host = none) :
    (initDroplet st c sid exec).2.filter isConnectWithHost = [] := by
  unfold initDroplet
  split
  · rw [List.filter_append, List.filter_append, List.filter_append]
    rw [filter_flatten_nil _ _ (fun l hl => by
      rcases List.mem_map.mp hl with ⟨cmd, _, rfl⟩
      exact runSSH_supplied_no_connect st cmd sid true sid (exec cmd))]
    cases hc : st.creationCallback <;> simp [isConnectWithHost, h]
  · simp [isConnectWithHost, h]

/-- `initDroplet` never writes `sshConfig`. -/
theorem initDroplet_sshConfig (st : MCState) (c : Bool) (sid : Nat)
    (exec : String → Except String SSHExecCommandResponse) :
    (initDroplet st c sid exec).1.sshConfig = st.sshConfig := by
  unfold initDroplet
  split <;> rfl

/-- `waitForDroplet` never writes `sshConfig`. -/
theorem waitForDroplet_sshConfig (st : MCState) (res : DropletInfo) (c : Bool)
    (sid : Nat) (exec : String → Except String SSHExecCommandResponse) :
    (waitForDroplet st res c sid exec).1.sshConfig = st.sshConfig := by
  unfold waitForDroplet
  split
  · rfl
  · match res.ipAddress with
    | none => rfl
    | some ip =>
      simp only
      split
      · rfl
      · exact initDroplet_sshConfig _ _ _ _

/-- No controller step writes `sshConfig`: it is built once, in the
constructor. -/
theorem step_sshConfig (st : MCState) (op : Op) :
    (step st op).1.sshConfig = st.sshConfig := by
  cases op with
  | createServer cb res =>
    simp only [step]
    unfold createServer
    split
    · rfl
    · cases res <;> rfl
  | stopServer sid exec deleteOk =>
    simp only [step]
    exact (stopServer_frame st sid exec deleteOk).2.2.2
  | forceStatus s => rfl
  | pollTick res c sid exec =>
    simp only [step]
    exact waitForDroplet_sshConfig st res c sid exec
  | firedTimeout => rfl

/-- `createServer` issues no SSH event at all. -/
theorem createServer_no_connectWithHost (st : MCState) (cb : Option Unit)
    (res : Except String Nat) :
    (createServer st cb res).2.filter isConnectWithHost = [] := by
  unfold createServer
  split
  · rfl
  · cases res <;> simp [isConnectWithHost]

/-- `stopServer` connects only through `runSSHCommand` with no session, so
with the construction-time `undefined` host it issues no connect event with
a defined host. -/
theorem stopServer_no_connectWithHost (st : MCState) (sid : Nat)
    (exec : Except String SSHExecCommandResponse) (deleteOk : Bool)
    (h : st.sshConfig.host = none) :
    (stopServer st sid exec deleteOk).2.filter isConnectWithHost = [] := by
  unfold stopServer
  split
  · rfl
  · cases exec <;> cases deleteOk <;>
      simp [runSSHCommand, isConnectWithHost, h]

/-- A poll tick, with the construction-time `undefined` host, issues no
connect event with a defined host. -/
theorem waitForDroplet_no_connectWithHost (st : MCState) (res : DropletInfo)
    (c : Bool) (sid : Nat) (exec : String → Except String SSHExecCommandResponse)
    (h : st.sshConfig.host = none) :
    (waitForDroplet st res c sid exec).2.filter isConnectWithHost = [] := by
  unfold waitForDroplet
  split
  · simp [isConnectWithHost]
  · match res.ipAddress with
    | none => simp [isConnectWithHost]
    | some ip =>
      simp only
      split
      · simp [isConnectWithHost]
      · rw [List.filter_cons]
        simp only [isConnectWithHost]
        exact initDroplet_no_connectWithHost _ c sid exec h

/-- One controller step, from a state whose stored ssh host is the
construction-time `undefined`, issues no connect with a defined host. -/
theorem step_no_connectWithHost (st : MCState) (op : Op)
    (h : st.sshConfig.host = none) :
    (step st op).2.filter isConnectWithHost = [] := by
  cases op with
  | createServer cb res => exact createServer_no_connectWithHost st cb res
  | stopServer sid exec deleteOk => exact stopServer_no_connectWithHost st sid exec deleteOk h
  | forceStatus s => rfl
  | pollTick res c sid exec => exact waitForDroplet_no_connectWithHost st res c sid exec h
  | firedTimeout => rfl

/-- Running any operation sequence never changes `sshConfig`. -/
theorem run_sshConfig (ops : List Op) (st : MCState) :
    (run st ops).1.sshConfig = st.sshConfig := by
  induction ops generalizing st with
  | nil => rfl
  | cons op rest ih =>
    simp only [run]
    rw [ih (step st op).1, step_sshConfig]

/-- Running any operation sequence from a state whose stored ssh host is
`none` produces no connect event with a defined host. -/
theorem run_no_connectWithHost (ops : List Op) (st : MCState)
    (h : st.sshConfig.host = none) :
    (run st ops).2.filter isConnectWithHost = [] := by
  induction ops generalizing st with
  | nil => rfl
  | cons op rest ih =>
    simp only [run, List.filter_append]
    rw [step_no_connectWithHost st op h,
        ih (step st op).1 (by rw [step_sshConfig]; exact h)]
    rfl

/-- Claim C9: the SSH configuration is built exactly once, in the
constructor, from the then-undefined `ipv4` field; no operation sequence —
in particular not a poll tick that records the discovered address into
`ipv4` — ever updates it, so every SSH connection the service opens uses
the construction-time host value (`undefined`), never the discovered
address. -/
theorem c9_ssh_config_frozen (pk : String) (ops : List Op) :
    (run (mkService pk) ops).1.sshConfig
        = { host := none, username := "root", privateKey := pk }
    ∧ (run (mkService pk) ops).2.filter isConnectWithHost = [] :=
  ⟨run_sshConfig ops (mkService pk), run_no_connectWithHost ops (mkService pk) rfl⟩

/-- A poll tick that finds the droplet not yet active. -/
def notReadyTick : Op := Op.pollTick ⟨"new", none⟩ true 0 execAllOk

/-- The state right after the successful `createServer` of droplet 42. -/
def stStarting42 : MCState :=
  { sshConfig := { host := none, username := "root", privateKey := "pk" }
    creationCallback := some ()
    status := ServerStatus.starting
    dropletId := some 42
    ipv4 := none }

/-- Recognises a `doGetDroplet` event (a provider status query). -/
def isGetDropletEvent : Event → Bool
  | Event.doGetDroplet _ => true
  | _ => false

/-- The retry path: `createServer` creates droplet 42 with a callback
registered, the initial bound poll tick observes provider status "new"
(not active) and schedules a retry, and then that timer fires. -/
def deadPollOps : List Op :=
  [Op.createServer (some ()) (Except.ok 42), notReadyTick, Op.firedTimeout]

/-- The only fully working path: the initial bound poll tick already
observes the droplet active with an address (provisioning session tag 7). -/
def firstTickActiveOps : List Op :=
  [Op.createServer (some ()) (Except.ok 42),
   Op.pollTick ⟨"active", some "1.2.3.4"⟩ true 7 execAllOk]

/-- Claim C5 evaluated on the code.  The initial bound poll tick that
observes a not-yet-active droplet does query the provider, keeps the status
at "starting" and calls `setTimeout` with the fixed 5000 ms delay — but the
callback it registers is the unbound `this.waitForDroplet`, so when the
timer fires it throws a TypeError on `this.doService` before polling: the
fired timer issues no provider query, no reschedule and no state change.
The trace of create → not-active tick → timer firing therefore contains
exactly one provider query and one schedule event, the status stays
"starting" forever and the callback is never invoked: the claimed unbounded
retry loop does not exist in the program.  Only when the very first tick
already observes the droplet active with an address does the claimed
behavior occur: address recorded, one shared provisioning session, status
"up", callback invoked exactly once. -/
theorem c5_poll_loop_dead_after_first_tick :
    (run (mkService "pk") deadPollOps).1.status = ServerStatus.starting
    ∧ (run (mkService "pk") deadPollOps).2.filter isScheduleEvent
        = [Event.schedule 5000]
    ∧ (run (mkService "pk") deadPollOps).2.filter isGetDropletEvent
        = [Event.doGetDroplet (some 42)]
    ∧ (run (mkService "pk") deadPollOps).2.count Event.callbackInvoked = 0
    ∧ firedPollTimeout stStarting42 = (stStarting42, [Event.uncaughtTypeError])
    ∧ (run (mkService "pk") firstTickActiveOps).1.status = ServerStatus.up
    ∧ (run (mkService "pk") firstTickActiveOps).1.ipv4 = some "1.2.3.4"
    ∧ (run (mkService "pk") firstTickActiveOps).2.count Event.callbackInvoked = 1
    ∧ (run (mkService "pk") firstTickActiveOps).2.filter isConnectEvent
        = [Event.sshConnect none 7] := by
  refine ⟨rfl, by decide, by decide, by decide, rfl, rfl, rfl, by decide, by decide⟩
